import Mathlib

/-!
Verification of the MusicBrainz API client (`src/client.ts`).

The client is embedded shallowly: asynchronous effects become explicit state
passing.  The rate-limit gate (`#rateLimitDelay`, a promise) is modelled by the
absolute time in milliseconds at which it resolves (`0` for the initially
resolved promise); `delay(d)` installed at time `now` resolves at `now + d`.
HTTP responses are given to the request functions as explicit arguments, so a
call such as `get` becomes a pure function from the client state, the call
arguments, the observed response and the current time to the new client state,
the request that was sent and the decoded result.
-/

namespace MBClient

/-! ## JavaScript primitives used by the client -/

/-- Value of one digit character, `none` for a non-digit. -/
def digitVal (c : Char) : Option Nat :=
  if c.isDigit then some (c.toNat - 48) else none

/-- Value of a hexadecimal digit character, `none` otherwise. -/
def hexVal (c : Char) : Option Nat :=
  if c.isDigit then some (c.toNat - 48)
  else if 'a' ≤ c ∧ c ≤ 'f' then some (c.toNat - 87)
  else if 'A' ≤ c ∧ c ≤ 'F' then some (c.toNat - 55)
  else none

/-- Numeric value of a list of decimal digit characters. -/
def digitsToNat (cs : List Char) : Nat :=
  cs.foldl (fun a c => a * 10 + (c.toNat - 48)) 0

/-- Numeric value of a list of hexadecimal digit characters. -/
def hexDigitsToNat (cs : List Char) : Nat :=
  cs.foldl (fun a c => a * 16 + ((hexVal c).getD 0)) 0

/-- Whether a character is a hexadecimal digit. -/
def isHexDigitChar (c : Char) : Bool :=
  (hexVal c).isSome

/-- Unsigned part of JavaScript `parseInt` with an unspecified radix: a `0x` or
`0X` prefix switches to hexadecimal, otherwise the leading run of decimal
digits is taken; no digits at all gives `NaN`, represented as `none`. -/
def parseUnsigned (cs : List Char) : Option Nat :=
  match cs with
  | '0' :: 'x' :: rest =>
    let ds := rest.takeWhile isHexDigitChar
    if ds.isEmpty then none else some (hexDigitsToNat ds)
  | '0' :: 'X' :: rest =>
    let ds := rest.takeWhile isHexDigitChar
    if ds.isEmpty then none else some (hexDigitsToNat ds)
  | _ =>
    let ds := cs.takeWhile Char.isDigit
    if ds.isEmpty then none else some (digitsToNat ds)

/-- JavaScript `parseInt(s)` (radix argument omitted): leading whitespace is
skipped, an optional sign is read, then `parseUnsigned`; `none` models `NaN`. -/
def jsParseInt (s : String) : Option Int :=
  let cs := s.toList.dropWhile Char.isWhitespace
  match cs with
  | '-' :: rest => (parseUnsigned rest).map (fun n => -(n : Int))
  | '+' :: rest => (parseUnsigned rest).map (fun n => (n : Int))
  | _ => (parseUnsigned cs).map (fun n => (n : Int))

/-- ASCII lowercasing of one character. -/
def lowerChar (c : Char) : Char :=
  if 'A' ≤ c ∧ c ≤ 'Z' then Char.ofNat (c.toNat + 32) else c

/-- ASCII lowercasing of a string (header names are ASCII). -/
def lowerStr (s : String) : String :=
  String.mk (s.toList.map lowerChar)

/-- `Headers.get` of the fetch API: case-insensitive lookup of a header name,
`null` (here `none`) when the header is absent. -/
def headersGet (hs : List (String × String)) (name : String) : Option String :=
  (hs.find? (fun p => lowerStr p.1 = lowerStr name)).map Prod.snd

/-! ## The rate-limit gate update of the private request primitive

`#request` awaits `this.#rateLimitDelay`, performs the fetch, then inspects the
`X-RateLimit-Remaining` and `X-RateLimit-Reset` response headers:

  if (remainingUnits && parseInt(remainingUnits) === 0)
    if (rateLimitReset)
      rateLimitDelay = parseInt(rateLimitReset) * 1000 - Date.now()
      if (rateLimitDelay > 0) this.#rateLimitDelay = delay(rateLimitDelay)

An empty header string is falsy in JavaScript, and a comparison with `NaN`
(`parseInt` of a digit-free string) is false, as is `NaN > 0`. -/

/-- The assignment to `#rateLimitDelay` performed by `#request` after observing
a response with headers `hs` at absolute time `now` (ms): `some t` means the
gate is replaced by a delay future resolving at absolute time `t`, `none`
means no assignment happens. -/
def rateLimitUpdate (hs : List (String × String)) (now : Int) : Option Int :=
  match headersGet hs "X-RateLimit-Remaining" with
  | none => none
  | some remainingUnits =>
    if remainingUnits ≠ "" ∧ jsParseInt remainingUnits = some 0 then
      match headersGet hs "X-RateLimit-Reset" with
      | none => none
      | some rateLimitReset =>
        if rateLimitReset ≠ "" then
          match jsParseInt rateLimitReset with
          | some reset =>
            if reset * 1000 - now > 0 then some (now + (reset * 1000 - now))
            else none
          | none => none
        else none
    else none

/-- The gate after `#request` processed a response: the reassigned value when
the assignment fires, the previous gate otherwise. -/
def requestStep (gate : Int) (hs : List (String × String)) (now : Int) : Int :=
  (rateLimitUpdate hs now).getD gate

/-- A request that reaches the gate-await step at time `arrival` with the gate
resolving at time `gate` performs its send at `max gate arrival`: awaiting an
already-resolved promise is a no-op, otherwise the send waits for the gate. -/
def sendTime (gate arrival : Int) : Int :=
  max gate arrival

/-- Folding `#request`'s gate update over a sequence of observed responses,
each a pair of response headers and the absolute time of observation. -/
def runRequests (init : Int) (events : List (List (String × String) × Int)) : Int :=
  events.foldl (fun g e => requestStep g e.1 e.2) init

/-! ## Query parameters and `URLSearchParams` serialization

`Query<string | number>` maps string keys to string or number values, keys may
also carry `undefined` (the filtered case).  `URLSearchParams.toString()`
produces `application/x-www-form-urlencoded` output: ASCII alphanumerics and
`*`, `-`, `.`, `_` are kept, a space becomes `+`, every other character is
percent-encoded from its UTF-8 bytes. -/

/-- A JavaScript value appearing in a query record: a string, a number, or
`undefined`. -/
inductive QVal where
  | str : String → QVal
  | num : Int → QVal
  | undef : QVal
deriving DecidableEq, Repr

/-- JavaScript string conversion of a query value, as applied by the
`URLSearchParams` record initializer (`undefined` stringifies to
`"undefined"`). -/
def qvalToString : QVal → String
  | .str s => s
  | .num n => toString n
  | .undef => "undefined"

/-- UTF-8 bytes of one character. -/
def utf8Bytes (c : Char) : List Nat :=
  let n := c.toNat
  if n < 0x80 then [n]
  else if n < 0x800 then [0xC0 + n / 64, 0x80 + n % 64]
  else if n < 0x10000 then [0xE0 + n / 4096, 0x80 + (n / 64) % 64, 0x80 + n % 64]
  else [0xF0 + n / 262144, 0x80 + (n / 4096) % 64, 0x80 + (n / 64) % 64, 0x80 + n % 64]

/-- Uppercase hexadecimal digit for a value below 16. -/
def hexDigitChar (n : Nat) : Char :=
  if n < 10 then Char.ofNat (48 + n) else Char.ofNat (55 + n)

/-- Percent-encoding of one byte, `%XX` with uppercase hexadecimal. -/
def percentEncodeByte (b : Nat) : List Char :=
  ['%', hexDigitChar (b / 16), hexDigitChar (b % 16)]

/-- Whether `application/x-www-form-urlencoded` leaves a character as is. -/
def formUrlSafe (c : Char) : Bool :=
  ('0' ≤ c ∧ c ≤ '9') ∨ ('a' ≤ c ∧ c ≤ 'z') ∨ ('A' ≤ c ∧ c ≤ 'Z') ∨
    c = '*' ∨ c = '-' ∨ c = '.' ∨ c = '_'

/-- `application/x-www-form-urlencoded` encoding of one character. -/
def formUrlEncodeChar (c : Char) : List Char :=
  if formUrlSafe c then [c]
  else if c = ' ' then ['+']
  else ((utf8Bytes c).map percentEncodeByte).flatten

/-- `application/x-www-form-urlencoded` encoding of a string. -/
def formUrlEncode (s : String) : String :=
  String.mk ((s.toList.map formUrlEncodeChar).flatten)

/-- `URLSearchParams(pairs).toString()`: each name-value pair is encoded as
`name=value` and the pairs are joined with `&`. -/
def urlSearchParamsToString (ps : List (String × String)) : String :=
  String.intercalate "&" (ps.map (fun p => formUrlEncode p.1 ++ "=" ++ formUrlEncode p.2))

/-! ## JSON values and the error envelope -/

/-- A decoded JSON value (`response.json()`). -/
inductive Json where
  | null : Json
  | bool : Bool → Json
  | num : Int → Json
  | str : String → Json
  | arr : List Json → Json
  | obj : List (String × Json) → Json

/-- Modelled from the spec: `isError` from `error.ts`, which is not among the
sources.  The spec describes the error envelope as a JSON object carrying a
human-readable message in an `error` field of type string, structurally
distinguished from success payloads by the presence of that field. -/
def isError : Json → Bool
  | .obj fields =>
    match fields.find? (fun p => p.1 = "error") with
    | some (_, .str _) => true
    | _ => false
  | _ => false

/-- Modelled from the spec: the `data.error` message string read from a body
that `isError` accepted (the remote-supplied human-readable message). -/
def errorField : Json → String
  | .obj fields =>
    match fields.find? (fun p => p.1 = "error") with
    | some (_, .str msg) => msg
    | _ => ""
  | _ => ""

/-- Modelled from the spec: `ApiError` from `error.ts`, which is not among the
sources.  The spec says the client's one manufactured error kind carries the
remote-supplied message string and the HTTP status code. -/
structure ApiError where
  message : String
  statusCode : Nat
deriving DecidableEq, Repr

/-- An HTTP response as observed by the client: status code, response headers
and the JSON-decoded body (a body that is not valid JSON fails earlier and is
propagated unmodified, which is outside this embedding). -/
structure HttpResponse where
  status : Nat
  headers : List (String × String)
  body : Json

/-- The shared response handling of `get` and `post`: if the decoded body
matches the error envelope, throw `new ApiError(data.error, response.status)`,
otherwise return the data.  Both methods contain this code verbatim. -/
def handleJsonResponse (resp : HttpResponse) : Except ApiError Json :=
  if isError resp.body then
    .error ⟨errorField resp.body, resp.status⟩
  else
    .ok resp.body

/-! ## UUID validation and the client -/

/-- Splitting a character list into the maximal groups separated by `sep`
(the string method `splitOn`, restated over character lists). -/
def splitOnChar (sep : Char) (cs : List Char) : List (List Char) :=
  cs.foldr
    (fun c acc =>
      match acc with
      | [] => [[c]]
      | g :: gs => if c = sep then [] :: (g :: gs) else (c :: g) :: gs)
    [[]]

/-- Modelled from the spec: the `validate` function of the Deno standard
library UUID module, an external dependency whose source is not in the
repository.  The spec requires the identifier to be a syntactically valid
UUID: five groups of 8, 4, 4, 4 and 12 hexadecimal digits joined by hyphens,
the third group starting with a version digit 1-5 and the fourth with a
variant digit 8, 9, a or b (case-insensitive), or the all-zero nil UUID. -/
def validate (id : String) : Bool :=
  (match splitOnChar '-' id.toList with
   | [g1, g2, g3, g4, g5] =>
     decide (g1.length = 8) && decide (g2.length = 4) && decide (g3.length = 4) &&
     decide (g4.length = 4) && decide (g5.length = 12) &&
     (g1 ++ g2 ++ g3 ++ g4 ++ g5).all isHexDigitChar &&
     (match g3 with
      | v :: _ => decide ('1' ≤ v ∧ v ≤ '5')
      | [] => false) &&
     (match g4 with
      | w :: _ => decide (w = '8' ∨ w = '9' ∨ w = 'a' ∨ w = 'b' ∨ w = 'A' ∨ w = 'B')
      | [] => false)
   | _ => false) ||
  decide (id = "00000000-0000-0000-0000-000000000000")

/-- The client state: `apiBaseUrl` and `#headers` are set by the constructor
and never reassigned; `#rateLimitDelay` starts as `Promise.resolve()`, a
promise already resolved at construction (resolve time `0`). -/
structure MusicBrainzClient where
  apiBaseUrl : String
  headers : List (String × String)
  rateLimitDelay : Int
deriving DecidableEq, Repr

/-- `new MusicBrainzClient(options)`: the base URL defaults to the production
endpoint and the fixed headers request JSON. -/
def newMusicBrainzClient (apiUrl : Option String) : MusicBrainzClient :=
  { apiBaseUrl := apiUrl.getD "https://musicbrainz.org/ws/2/"
    headers := [("Accept", "application/json")]
    rateLimitDelay := 0 }

/-- The URL a request is sent to: the arguments of `new URL(endpoint,
this.apiBaseUrl)` together with the query component.  `search = none` means
the query component is whatever the endpoint string itself carried (never
assigned); `search = some s` records an assignment `url.search = s`.  Generic
relative-reference resolution is not modelled: no claim depends on it. -/
structure EndpointUrl where
  endpoint : String
  baseUrl : String
  search : Option String
deriving DecidableEq, Repr

/-- `url.search = s`: assignment to the search component of a URL. -/
def setSearch (u : EndpointUrl) (s : String) : EndpointUrl :=
  { u with search := some s }

/-- `Object.entries(query).filter(([_key, value]) => value !== undefined)`. -/
def definedParams (query : List (String × QVal)) : List (String × QVal) :=
  query.filter (fun p => p.2 ≠ QVal.undef)

/-- Stringification of one query pair as done by the `URLSearchParams`
initializers. -/
def stringifyParam (p : String × QVal) : String × String :=
  (p.1, qvalToString p.2)

/-- The URL built by `get`: `new URL(endpoint, this.apiBaseUrl)`, then, when a
query is given, two assignments to `url.search` in sequence — first the
serialization of the unfiltered record, then the serialization of
`definedParams` (pairs form), which overwrites the first. -/
def buildGetUrl (baseUrl endpoint : String) (query : Option (List (String × QVal))) :
    EndpointUrl :=
  let endpointUrl : EndpointUrl := { endpoint := endpoint, baseUrl := baseUrl, search := none }
  match query with
  | none => endpointUrl
  | some q =>
    setSearch
      (setSearch endpointUrl (urlSearchParamsToString (q.map stringifyParam)))
      (urlSearchParamsToString ((definedParams q).map stringifyParam))

/-- The request handed to `fetch`: the URL and the request initializer
(method, headers, optional JSON body). -/
structure SentRequest where
  url : EndpointUrl
  method : String
  headers : List (String × String)
  body : Option Json

/-- `get(endpoint, query?)`: builds the URL, sends a GET request with the
fixed headers through the throttled request primitive, then decodes the
response.  The observed response and the current time are explicit arguments;
the result is the new client state, the request that was sent and the decoded
payload or `ApiError`. -/
def get (c : MusicBrainzClient) (endpoint : String) (query : Option (List (String × QVal)))
    (resp : HttpResponse) (now : Int) :
    MusicBrainzClient × SentRequest × Except ApiError Json :=
  let endpointUrl := buildGetUrl c.apiBaseUrl endpoint query
  ({ c with rateLimitDelay := requestStep c.rateLimitDelay resp.headers now },
   { url := endpointUrl, method := "GET", headers := c.headers, body := none },
   handleJsonResponse resp)

/-- `post(endpoint, json)`: builds the URL without query handling, sends a
POST request with the fixed headers and the JSON body through the throttled
request primitive, then decodes the response exactly as `get` does. -/
def post (c : MusicBrainzClient) (endpoint : String) (json : Json)
    (resp : HttpResponse) (now : Int) :
    MusicBrainzClient × SentRequest × Except ApiError Json :=
  let endpointUrl := buildGetUrl c.apiBaseUrl endpoint none
  ({ c with rateLimitDelay := requestStep c.rateLimitDelay resp.headers now },
   { url := endpointUrl, method := "POST", headers := c.headers, body := some json },
   handleJsonResponse resp)

/-- `lookup(entityType, mbid, inc = [])`: asserts `validate(mbid)` before any
request is constructed — on failure the call ends with the assertion error
message and nothing is sent — then delegates to
`get([entityType, mbid].join("/"), ‹inc: inc.join("+")›)`. -/
def lookup (c : MusicBrainzClient) (entityType : String) (mbid : String)
    (inc : List String) (resp : HttpResponse) (now : Int) :
    Except String (MusicBrainzClient × SentRequest × Except ApiError Json) :=
  if validate mbid then
    .ok (get c (String.intercalate "/" [entityType, mbid])
      (some [("inc", QVal.str (String.intercalate "+" inc))]) resp now)
  else
    .error (mbid ++ " is not a valid MBID")

example : validate "94ed318a-fd7d-4abc-8491-a35e39f51dca" = true := by decide
example : validate "not-a-uuid" = false := by decide
example : validate "00000000-0000-0000-0000-000000000000" = true := by decide
example : validate "94ed318a-fd7d-4abc-8491-a35e39f51dcaX" = false := by decide
example : urlSearchParamsToString [("inc", "")] = "inc=" := by decide
example : urlSearchParamsToString [("inc", "artists+releases")] = "inc=artists%2Breleases" := by
  decide
example : String.intercalate "/" ["recording", "b"] = "recording/b" := by decide
example : String.intercalate "+" ([] : List String) = "" := by decide
example : jsParseInt "0" = some 0 := by decide
example : jsParseInt "" = none := by decide
example : jsParseInt " 42abc" = some 42 := by decide
example : jsParseInt "-0" = some 0 := by decide
example : jsParseInt "0x1A" = some 26 := by decide
example :
    rateLimitUpdate [("X-RateLimit-Remaining", "0"), ("X-RateLimit-Reset", "2")] 1500 =
      some 2000 := by decide
example :
    rateLimitUpdate [("X-RateLimit-Remaining", "5"), ("X-RateLimit-Reset", "2")] 1500 =
      none := by decide
example :
    rateLimitUpdate [("x-ratelimit-remaining", "0"), ("x-ratelimit-reset", "2")] 2500 =
      none := by decide

/-! ## Helper lemmas -/

/-- `parseInt` of the empty string is `NaN`. -/
theorem jsParseInt_empty_eq_none : jsParseInt "" = none := by decide

/-- A string whose `parseInt` is a number is not empty (so it is truthy). -/
theorem jsParseInt_some_ne_empty {s : String} {n : Int} (h : jsParseInt s = some n) :
    s ≠ "" := by
  intro he
  rw [he, jsParseInt_empty_eq_none] at h
  exact Option.noConfusion h

/-- Characterization of the gate assignment: `#request` installs a new delay
future exactly when the remaining-units header is present and parses to `0`,
the reset header is present and parses to a number, and the computed cooldown
is strictly positive; the installed future resolves at `now + cooldown`. -/
theorem rateLimitUpdate_eq_some_iff (hs : List (String × String)) (now t : Int) :
    rateLimitUpdate hs now = some t ↔
      ∃ s rt r,
        headersGet hs "X-RateLimit-Remaining" = some s ∧ jsParseInt s = some 0 ∧
        headersGet hs "X-RateLimit-Reset" = some rt ∧ jsParseInt rt = some r ∧
        r * 1000 - now > 0 ∧ t = now + (r * 1000 - now) := by
  constructor
  · intro h
    unfold rateLimitUpdate at h
    split at h
    · exact Option.noConfusion h
    next s hrem =>
      split at h
      next hc =>
        split at h
        · exact Option.noConfusion h
        next rt hres =>
          split at h
          next hrt =>
            split at h
            next r hpt =>
              split at h
              next hpos =>
                exact ⟨s, rt, r, hrem, hc.2, hres, hpt, hpos,
                  (Option.some_inj.mp h).symm⟩
              next hpos => exact Option.noConfusion h
            next hpt => exact Option.noConfusion h
          next hrt => exact Option.noConfusion h
      next hc => exact Option.noConfusion h
  · rintro ⟨s, rt, r, hrem, hs0, hres, hpt, hpos, ht⟩
    unfold rateLimitUpdate
    simp only [hrem]
    rw [if_pos ⟨jsParseInt_some_ne_empty hs0, hs0⟩]
    simp only [hres]
    rw [if_pos (jsParseInt_some_ne_empty hpt)]
    simp only [hpt]
    rw [if_pos hpos, ht]

/-- When the remaining-units header is absent, no assignment happens. -/
theorem rateLimitUpdate_remaining_absent (hs : List (String × String)) (now : Int)
    (h : headersGet hs "X-RateLimit-Remaining" = none) :
    rateLimitUpdate hs now = none := by
  unfold rateLimitUpdate
  rw [h]

/-- When the reset header is absent, no assignment happens. -/
theorem rateLimitUpdate_reset_absent (hs : List (String × String)) (now : Int)
    (h : headersGet hs "X-RateLimit-Reset" = none) :
    rateLimitUpdate hs now = none := by
  unfold rateLimitUpdate
  split
  · rfl
  next s hrem =>
    split
    next hc => rw [h]
    next hc => rfl

/-! ## Claim theorems -/

/-- C1: the shared rate-limit gate is replaced with a new delay future if and
only if `X-RateLimit-Remaining` is present and parses to the integer `0`,
`X-RateLimit-Reset` is present, and the computed cooldown
(reset seconds times 1000 minus the current time in milliseconds) is strictly
positive; when either header is absent, no state change occurs (and, the
embedding being total, no error is raised). -/
theorem gateReplacementIff (gate now : Int) (hs : List (String × String)) :
    ((∃ t, rateLimitUpdate hs now = some t) ↔
      ((∃ s, headersGet hs "X-RateLimit-Remaining" = some s ∧ jsParseInt s = some 0) ∧
       (∃ rt, headersGet hs "X-RateLimit-Reset" = some rt ∧
         ∃ r, jsParseInt rt = some r ∧ r * 1000 - now > 0))) ∧
    (headersGet hs "X-RateLimit-Remaining" = none →
      rateLimitUpdate hs now = none ∧ requestStep gate hs now = gate) ∧
    (headersGet hs "X-RateLimit-Reset" = none →
      rateLimitUpdate hs now = none ∧ requestStep gate hs now = gate) := by
  refine ⟨?_, ?_, ?_⟩
  · constructor
    · rintro ⟨t, h⟩
      obtain ⟨s, rt, r, hrem, hs0, hres, hpt, hpos, -⟩ :=
        (rateLimitUpdate_eq_some_iff hs now t).mp h
      exact ⟨⟨s, hrem, hs0⟩, rt, hres, r, hpt, hpos⟩
    · rintro ⟨⟨s, hrem, hs0⟩, rt, hres, r, hpt, hpos⟩
      exact ⟨now + (r * 1000 - now),
        (rateLimitUpdate_eq_some_iff hs now _).mpr
          ⟨s, rt, r, hrem, hs0, hres, hpt, hpos, rfl⟩⟩
  · intro h
    have hu := rateLimitUpdate_remaining_absent hs now h
    exact ⟨hu, by unfold requestStep; rw [hu]; rfl⟩
  · intro h
    have hu := rateLimitUpdate_reset_absent hs now h
    exact ⟨hu, by unfold requestStep; rw [hu]; rfl⟩

/-- Witness for C1: a response with no rate-limit headers leaves the gate
untouched. -/
theorem gateReplacementIff_witness :
    rateLimitUpdate [("Content-Length", "12")] 5 = none ∧
    requestStep 7 [("Content-Length", "12")] 5 = 7 :=
  (gateReplacementIff 7 5 [("Content-Length", "12")]).2.1 (by decide)

/-- C2: after a response carrying `X-RateLimit-Remaining: 0` and
`X-RateLimit-Reset: T` with `T*1000` greater than the current time, the gate
resolves at `T*1000`; every request reaching the gate-await step at a time
within the window is suspended until `T*1000`, so for at least
`T*1000 - arrival` milliseconds (in particular a request issued immediately
after, at `now`, is suspended for at least `T*1000 - now`), and a request
arriving after the window has elapsed is not delayed by the expired
cooldown. -/
theorem cooldownSuspensionBounds (gate now reset : Int) (hs : List (String × String))
    (rt : String)
    (hrem : headersGet hs "X-RateLimit-Remaining" = some "0")
    (hres : headersGet hs "X-RateLimit-Reset" = some rt)
    (hpt : jsParseInt rt = some reset)
    (hpos : reset * 1000 > now) :
    requestStep gate hs now = reset * 1000 ∧
    (∀ arrival, arrival ≤ reset * 1000 →
      reset * 1000 - arrival ≤ sendTime (requestStep gate hs now) arrival - arrival) ∧
    (∀ arrival, reset * 1000 ≤ arrival →
      sendTime (requestStep gate hs now) arrival = arrival) := by
  have hupd : rateLimitUpdate hs now = some (now + (reset * 1000 - now)) :=
    (rateLimitUpdate_eq_some_iff hs now _).mpr
      ⟨"0", rt, reset, hrem, by decide, hres, hpt, by omega, rfl⟩
  have hstep : requestStep gate hs now = reset * 1000 := by
    unfold requestStep
    rw [hupd]
    simp only [Option.getD_some]
    omega
  refine ⟨hstep, ?_, ?_⟩
  · intro arrival harr
    rw [hstep]
    unfold sendTime
    omega
  · intro arrival harr
    rw [hstep]
    unfold sendTime
    omega

/-- Witness for C2: a cooldown installed at time 500 from `X-RateLimit-Reset: 2`
suspends a request arriving at 600 until 2000 and does not delay one arriving
at 2500. -/
theorem cooldownSuspensionBounds_witness :
    requestStep 0 [("X-RateLimit-Remaining", "0"), ("X-RateLimit-Reset", "2")] 500 =
      2000 ∧
    2000 - 600 ≤
      sendTime
        (requestStep 0 [("X-RateLimit-Remaining", "0"), ("X-RateLimit-Reset", "2")] 500)
        600 - 600 ∧
    sendTime
        (requestStep 0 [("X-RateLimit-Remaining", "0"), ("X-RateLimit-Reset", "2")] 500)
        2500 = 2500 := by
  have h := cooldownSuspensionBounds 0 500 2
    [("X-RateLimit-Remaining", "0"), ("X-RateLimit-Reset", "2")] "2"
    (by decide) (by decide) (by decide) (by decide)
  exact ⟨h.1, h.2.1 600 (by decide), h.2.2 2500 (by decide)⟩

/-- C4: a lookup whose identifier does not satisfy the UUID grammar ends with
the assertion error message before any request is constructed: the result is
the bare contract-violation error, which carries no sent request and leaves
the client state untouched. -/
theorem invalidMbidFailsBeforeRequest (c : MusicBrainzClient) (entityType mbid : String)
    (inc : List String) (resp : HttpResponse) (now : Int)
    (h : validate mbid = false) :
    lookup c entityType mbid inc resp now =
      Except.error (mbid ++ " is not a valid MBID") := by
  unfold lookup
  rw [h]
  rfl

/-- Witness for C4: a malformed identifier makes `lookup` fail with the
assertion message. -/
theorem invalidMbidFailsBeforeRequest_witness :
    lookup (newMusicBrainzClient none) "artist" "not-a-uuid" [] ⟨200, [], Json.null⟩ 0 =
      Except.error "not-a-uuid is not a valid MBID" :=
  invalidMbidFailsBeforeRequest (newMusicBrainzClient none) "artist" "not-a-uuid" []
    ⟨200, [], Json.null⟩ 0 (by decide)

/-- C5: the gate tracks at most one cooldown window: a response that installs
a cooldown overwrites the gate wholesale, so after any earlier sequence of
requests the gate is exactly the newly installed resolve time — independent of
every pending cooldown, with no stacking — and a response that installs
nothing leaves the gate unchanged. -/
theorem gateSingleCooldownWindow (init t : Int)
    (events : List (List (String × String) × Int))
    (e : List (String × String) × Int)
    (h : rateLimitUpdate e.1 e.2 = some t) :
    runRequests init (events ++ [e]) = t ∧
    (∀ g g', requestStep g e.1 e.2 = requestStep g' e.1 e.2) ∧
    (∀ g hs now, rateLimitUpdate hs now = none → requestStep g hs now = g) := by
  refine ⟨?_, ?_, ?_⟩
  · unfold runRequests
    rw [List.foldl_append]
    simp only [List.foldl_cons, List.foldl_nil]
    unfold requestStep
    rw [h]
    rfl
  · intro g g'
    unfold requestStep
    rw [h]
    rfl
  · intro g hs now hnone
    unfold requestStep
    rw [hnone]
    rfl

/-- Witness for C5: a second rate-limited response overwrites the cooldown
installed by a first one. -/
theorem gateSingleCooldownWindow_witness :
    runRequests 0
      [([("X-RateLimit-Remaining", "0"), ("X-RateLimit-Reset", "2")], 500),
       ([("X-RateLimit-Remaining", "0"), ("X-RateLimit-Reset", "3")], 1200)] = 3000 :=
  (gateSingleCooldownWindow 0 3000
    [([("X-RateLimit-Remaining", "0"), ("X-RateLimit-Reset", "2")], 500)]
    ([("X-RateLimit-Remaining", "0"), ("X-RateLimit-Reset", "3")], 1200)
    (by decide)).1

/-- `[a, b].join(s)` is `a ++ s ++ b`. -/
theorem intercalate_pair (s a b : String) : String.intercalate s [a, b] = a ++ s ++ b := by
  simp [String.intercalate, String.intercalate.go]

/-- A concrete error-envelope response used by witnesses. -/
def sampleErrorResponse : HttpResponse :=
  { status := 404
    headers := []
    body := Json.obj [("error", Json.str "Not Found")] }

/-- C3: on a response whose decoded body matches the error envelope, `get`,
`post` and `lookup` (which delegates to `get`) all fail with an `ApiError`
carrying exactly the remote-supplied message and the HTTP status code of the
response, whichever entry point was used. -/
theorem errorEnvelopeUniformFailure (c : MusicBrainzClient) (endpoint : String)
    (query : Option (List (String × QVal))) (json : Json) (entityType mbid : String)
    (inc : List String) (resp : HttpResponse) (now : Int)
    (herr : isError resp.body = true) :
    (get c endpoint query resp now).2.2 =
      Except.error ⟨errorField resp.body, resp.status⟩ ∧
    (post c endpoint json resp now).2.2 =
      Except.error ⟨errorField resp.body, resp.status⟩ ∧
    (∀ out, lookup c entityType mbid inc resp now = Except.ok out →
      out.2.2 = Except.error ⟨errorField resp.body, resp.status⟩) := by
  have hh : handleJsonResponse resp = Except.error ⟨errorField resp.body, resp.status⟩ := by
    unfold handleJsonResponse
    rw [if_pos herr]
  refine ⟨hh, hh, ?_⟩
  intro out hout
  unfold lookup at hout
  by_cases hval : validate mbid
  · rw [if_pos hval] at hout
    have : out = get c (String.intercalate "/" [entityType, mbid])
        (some [("inc", QVal.str (String.intercalate "+" inc))]) resp now :=
      (Except.ok.injEq _ _ |>.mp hout).symm
    rw [this]
    exact hh
  · rw [if_neg hval] at hout
    exact Except.noConfusion hout

/-- Witness for C3: a 404 error envelope fails every entry point with the
same message and status. -/
theorem errorEnvelopeUniformFailure_witness :
    (get (newMusicBrainzClient none) "artist" none sampleErrorResponse 0).2.2 =
      Except.error ⟨errorField sampleErrorResponse.body, sampleErrorResponse.status⟩ ∧
    (post (newMusicBrainzClient none) "collection" Json.null sampleErrorResponse 0).2.2 =
      Except.error ⟨errorField sampleErrorResponse.body, sampleErrorResponse.status⟩ ∧
    (get (newMusicBrainzClient none)
        "recording/94ed318a-fd7d-4abc-8491-a35e39f51dca"
        (some [("inc", QVal.str "")]) sampleErrorResponse 0).2.2 =
      Except.error ⟨errorField sampleErrorResponse.body, sampleErrorResponse.status⟩ := by
  have h := errorEnvelopeUniformFailure (newMusicBrainzClient none) "artist" none
    Json.null "recording" "94ed318a-fd7d-4abc-8491-a35e39f51dca" []
    sampleErrorResponse 0 (by decide)
  have h3 := h.2.2
    (get (newMusicBrainzClient none)
      "recording/94ed318a-fd7d-4abc-8491-a35e39f51dca"
      (some [("inc", QVal.str "")]) sampleErrorResponse 0)
  refine ⟨h.1, ?_, h3 ?_⟩
  · exact (errorEnvelopeUniformFailure (newMusicBrainzClient none) "artist" none
      Json.null "recording" "94ed318a-fd7d-4abc-8491-a35e39f51dca" []
      sampleErrorResponse 0 (by decide)).2.1
  · unfold lookup
    rw [if_pos (by decide)]
    rfl

/-- C6: with a syntactically valid identifier, `lookup` delegates to `get`
with the endpoint `entityType ++ "/" ++ mbid` and a single query parameter
`inc` whose value is the include tokens joined by `+`; an empty or omitted
include list makes that value the empty string, which serializes to `inc=`. -/
theorem lookupDelegatesToGet (c : MusicBrainzClient) (entityType mbid : String)
    (inc : List String) (resp : HttpResponse) (now : Int)
    (h : validate mbid = true) :
    lookup c entityType mbid inc resp now =
      Except.ok (get c (entityType ++ "/" ++ mbid)
        (some [("inc", QVal.str (String.intercalate "+" inc))]) resp now) ∧
    (inc = [] →
      String.intercalate "+" inc = "" ∧
      urlSearchParamsToString
        ([("inc", QVal.str (String.intercalate "+" inc))].map stringifyParam) = "inc=") := by
  constructor
  · unfold lookup
    rw [if_pos h, intercalate_pair]
  · rintro rfl
    exact ⟨rfl, by decide⟩

/-- Witness for C6: the lookup of the spec's example recording with no
includes delegates to `get recording/94ed318a-fd7d-4abc-8491-a35e39f51dca`
with `inc=` as serialized query. -/
theorem lookupDelegatesToGet_witness :
    lookup (newMusicBrainzClient none) "recording"
        "94ed318a-fd7d-4abc-8491-a35e39f51dca" [] ⟨200, [], Json.null⟩ 0 =
      Except.ok (get (newMusicBrainzClient none)
        ("recording" ++ "/" ++ "94ed318a-fd7d-4abc-8491-a35e39f51dca")
        (some [("inc", QVal.str (String.intercalate "+" ([] : List String)))])
        ⟨200, [], Json.null⟩ 0) ∧
    String.intercalate "+" ([] : List String) = "" ∧
    urlSearchParamsToString
      ([("inc", QVal.str (String.intercalate "+" ([] : List String)))].map stringifyParam) =
      "inc=" := by
  have h := lookupDelegatesToGet (newMusicBrainzClient none) "recording"
    "94ed318a-fd7d-4abc-8491-a35e39f51dca" [] ⟨200, [], Json.null⟩ 0 (by decide)
  exact ⟨h.1, h.2 rfl⟩

/-- C10: a response whose decoded body does not match the error envelope is
returned as a success by `get` and `post` whatever the HTTP status code is;
only an error-envelope body makes the client manufacture a failure. -/
theorem nonErrorBodySucceeds (c : MusicBrainzClient) (endpoint : String)
    (query : Option (List (String × QVal))) (json : Json) (resp : HttpResponse)
    (now : Int) (h : isError resp.body = false) :
    (get c endpoint query resp now).2.2 = Except.ok resp.body ∧
    (post c endpoint json resp now).2.2 = Except.ok resp.body := by
  have hh : handleJsonResponse resp = Except.ok resp.body := by
    unfold handleJsonResponse
    rw [if_neg (by rw [h]; exact Bool.false_ne_true)]
  exact ⟨hh, hh⟩

/-- Witness for C10: a 404 response with a non-envelope body is returned as a
success by both `get` and `post`. -/
theorem nonErrorBodySucceeds_witness :
    (get (newMusicBrainzClient none) "artist" none
        ⟨404, [], Json.obj [("title", Json.str "x")]⟩ 0).2.2 =
      Except.ok (Json.obj [("title", Json.str "x")]) ∧
    (post (newMusicBrainzClient none) "collection" Json.null
        ⟨404, [], Json.obj [("title", Json.str "x")]⟩ 0).2.2 =
      Except.ok (Json.obj [("title", Json.str "x")]) :=
  nonErrorBodySucceeds (newMusicBrainzClient none) "artist" none Json.null
    ⟨404, [], Json.obj [("title", Json.str "x")]⟩ 0 (by decide)

/-- C7: the only client-state mutation a request performs is the replacement
of the rate-limit gate: for `get`, `post` and (through delegation) `lookup`,
the new client state is exactly the old one with `rateLimitDelay` stepped by
the response, so `apiBaseUrl` and the fixed headers are unchanged by every
operation after construction. -/
theorem onlyGateMutation (c : MusicBrainzClient) (endpoint : String)
    (query : Option (List (String × QVal))) (json : Json) (entityType mbid : String)
    (inc : List String) (resp : HttpResponse) (now : Int) :
    (get c endpoint query resp now).1 =
      { c with rateLimitDelay := requestStep c.rateLimitDelay resp.headers now } ∧
    (post c endpoint json resp now).1 =
      { c with rateLimitDelay := requestStep c.rateLimitDelay resp.headers now } ∧
    (get c endpoint query resp now).1.apiBaseUrl = c.apiBaseUrl ∧
    (get c endpoint query resp now).1.headers = c.headers ∧
    (post c endpoint json resp now).1.apiBaseUrl = c.apiBaseUrl ∧
    (post c endpoint json resp now).1.headers = c.headers ∧
    (∀ out, lookup c entityType mbid inc resp now = Except.ok out →
      out.1 = { c with rateLimitDelay := requestStep c.rateLimitDelay resp.headers now }) := by
  refine ⟨rfl, rfl, rfl, rfl, rfl, rfl, ?_⟩
  intro out hout
  unfold lookup at hout
  by_cases hval : validate mbid
  · rw [if_pos hval] at hout
    rw [(Except.ok.injEq _ _ |>.mp hout).symm]
    rfl
  · rw [if_neg hval] at hout
    exact Except.noConfusion hout

/-- Witness for C7: a lookup on a fresh client changes nothing but the gate. -/
theorem onlyGateMutation_witness :
    ∃ out, lookup (newMusicBrainzClient none) "recording"
        "94ed318a-fd7d-4abc-8491-a35e39f51dca" [] ⟨200, [], Json.null⟩ 0 =
      Except.ok out ∧
      out.1 = { newMusicBrainzClient none with
        rateLimitDelay := requestStep (newMusicBrainzClient none).rateLimitDelay [] 0 } := by
  refine ⟨get (newMusicBrainzClient none)
    (String.intercalate "/" ["recording", "94ed318a-fd7d-4abc-8491-a35e39f51dca"])
    (some [("inc", QVal.str (String.intercalate "+" ([] : List String)))])
    ⟨200, [], Json.null⟩ 0, ?_, ?_⟩
  · unfold lookup
    rw [if_pos (by decide)]
  · exact (onlyGateMutation (newMusicBrainzClient none) "x" none Json.null "recording"
      "94ed318a-fd7d-4abc-8491-a35e39f51dca" [] ⟨200, [], Json.null⟩ 0).2.2.2.2.2.2 _
      (by unfold lookup; rw [if_pos (by decide)])

/-- C8: for a query mapping passed to `get`, the final search component of the
request URL is the serialization of exactly the entries whose value is
defined: a pair is kept by the filter if and only if it occurs in the mapping
with a value other than `undefined`, so no `key=undefined` entry reaches the
serialized string and every defined entry is retained. -/
theorem undefinedQueryFiltered (baseUrl endpoint : String) (q : List (String × QVal)) :
    (buildGetUrl baseUrl endpoint (some q)).search =
      some (urlSearchParamsToString ((definedParams q).map stringifyParam)) ∧
    (∀ k, (k, QVal.undef) ∉ definedParams q) ∧
    (∀ p, p ∈ definedParams q ↔ p ∈ q ∧ p.2 ≠ QVal.undef) := by
  refine ⟨rfl, ?_, ?_⟩
  · intro k hk
    have := (List.mem_filter.mp hk).2
    simp at this
  · intro p
    constructor
    · intro hp
      have h := List.mem_filter.mp hp
      refine ⟨h.1, ?_⟩
      have := h.2
      simpa using this
    · intro h
      exact List.mem_filter.mpr ⟨h.1, by simpa using h.2⟩

/-- Witness for C8: an undefined-valued key is dropped, the defined ones are
kept. -/
theorem undefinedQueryFiltered_witness :
    (buildGetUrl "https://musicbrainz.org/ws/2/" "artist"
        (some [("limit", QVal.num 5), ("offset", QVal.undef)])).search =
      some (urlSearchParamsToString
        ((definedParams [("limit", QVal.num 5), ("offset", QVal.undef)]).map
          stringifyParam)) ∧
    ("offset", QVal.undef) ∉
      definedParams [("limit", QVal.num 5), ("offset", QVal.undef)] ∧
    ("limit", QVal.num 5) ∈
      definedParams [("limit", QVal.num 5), ("offset", QVal.undef)] := by
  have h := undefinedQueryFiltered "https://musicbrainz.org/ws/2/" "artist"
    [("limit", QVal.num 5), ("offset", QVal.undef)]
  exact ⟨h.1, h.2.1 "offset",
    (h.2.2 ("limit", QVal.num 5)).mpr ⟨by decide, by decide⟩⟩

/-- C9: filtering the undefined-valued entries is idempotent — filtering twice
serializes to the same string as filtering once — and assigning the search
component twice in sequence, as `get` does, leaves exactly the final
assignment, so the double assignment produces the same query string as a
single application of the filter-and-serialize step. -/
theorem filterSerializeIdempotent (q : List (String × QVal)) (u : EndpointUrl)
    (s1 s2 : String) (baseUrl endpoint : String) :
    definedParams (definedParams q) = definedParams q ∧
    urlSearchParamsToString ((definedParams (definedParams q)).map stringifyParam) =
      urlSearchParamsToString ((definedParams q).map stringifyParam) ∧
    setSearch (setSearch u s1) s2 = setSearch u s2 ∧
    (buildGetUrl baseUrl endpoint (some q)).search =
      some (urlSearchParamsToString ((definedParams q).map stringifyParam)) := by
  have hfilter : definedParams (definedParams q) = definedParams q := by
    unfold definedParams
    rw [List.filter_filter]
    congr 1
    funext a
    rw [Bool.and_self]
  refine ⟨hfilter, by rw [hfilter], rfl, rfl⟩

end MBClient
